import Mathlib

/-!
Verification of the MCP Postgres/Supabase adapter against its specification.

The development shallowly embeds the request routing / validation /
credential-selection layer of the repository:
  - src/config/env.ts          (policy flags, shouldUseServiceKey)
  - src/services/supabase.ts   (operation executors, executeTransaction,
                                getTableSchema and the identifier sanitizer)
  - src/services/mcp-handlers.ts (handleCallTool: the tool dispatch,
                                single-operation handlers and the batch
                                coordinator)

JavaScript strings are modelled as Lean strings; the dynamic JSON arguments
of a tool call are modelled by the shapes the tool schema declares, with an
explicit constructor for an absent and for a wrongly typed argument.  The
remote backend is a parameter: every executor records the calls it issues,
so that claims of the form "no backend call is made" are provable.
-/

/-! ## JavaScript string helpers (character-level, kernel-reducible) -/

/-- Model of the JavaScript `toUpperCase` over the character sequence. -/
def jsToUpperCase (s : String) : String :=
  String.mk (s.toList.map Char.toUpper)

/-- Model of the JavaScript `toLowerCase` over the character sequence. -/
def jsToLowerCase (s : String) : String :=
  String.mk (s.toList.map Char.toLower)

/-- Model of `String.prototype.startsWith`. -/
def strStartsWith (s p : String) : Bool :=
  p.toList.isPrefixOf s.toList

/-- Helper for substring containment on character lists. -/
def containsSub (pat : List Char) : List Char → Bool
  | [] => pat.isEmpty
  | c :: rest => pat.isPrefixOf (c :: rest) || containsSub pat rest

/-- Model of `String.prototype.includes`. -/
def strIncludes (s pat : String) : Bool :=
  containsSub pat.toList s.toList

/-- The character class of the sanitizer regex: `[a-zA-Z0-9_]`. -/
def isIdentChar (c : Char) : Bool :=
  ('a' ≤ c && c ≤ 'z') || ('A' ≤ c && c ≤ 'Z') || ('0' ≤ c && c ≤ '9') || c = '_'

/-- The identifier sanitizer used everywhere in the repository:
`name.replace(/[^a-zA-Z0-9_]/g, ...)` with the empty replacement, i.e. the
characters outside `[a-zA-Z0-9_]` are removed. -/
def sanitizeIdent (s : String) : String :=
  String.mk (s.toList.filter isIdentChar)

/-- JavaScript falsiness of a possibly absent string argument
(`undefined`, `null` and the empty string are falsy). -/
def jsFalsyStr : Option String → Bool
  | none => true
  | some s => s.toList.isEmpty

/-! ## Policy and credential tier (src/config/env.ts) -/

/-- The three CRUD permission flags of the environment
(`ALLOW_CREATE_OPERATIONS`, `ALLOW_UPDATE_OPERATIONS`,
`ALLOW_DELETE_OPERATIONS`); the global `env` singleton is passed
explicitly. -/
structure Policy where
  allowCreate : Bool
  allowUpdate : Bool
  allowDelete : Bool
deriving DecidableEq, Repr

/-- The two credential tiers: the standard API key client and the
privileged service-role client. -/
inductive CredentialTier where
  | Standard
  | Privileged
deriving DecidableEq, Repr

/-- src/config/env.ts, `shouldUseServiceKey` (lines 140-156): uppercases
the operation type and tests the CREATE, UPDATE/ALTER and DELETE prefixes
against the corresponding permission flags. -/
def shouldUseServiceKey (p : Policy) (operationType : String) : Bool :=
  let ty := jsToUpperCase operationType
  if strStartsWith ty "CREATE" && !p.allowCreate then true
  else if (strStartsWith ty "UPDATE" || strStartsWith ty "ALTER") && !p.allowUpdate then true
  else if strStartsWith ty "DELETE" && !p.allowDelete then true
  else false

/-- Turns the boolean client choice of the executors
(`useServiceRole ? getSupabaseServiceClient() : getSupabaseClient()`)
into a credential tier. -/
def tierOfFlag (b : Bool) : CredentialTier :=
  if b then CredentialTier.Privileged else CredentialTier.Standard

/-- Tier chosen by `executeInsert` (src/services/supabase.ts line 278):
`shouldUseServiceKey` applied to the string INSERT. -/
def executeInsertTier (p : Policy) : CredentialTier :=
  tierOfFlag (shouldUseServiceKey p "INSERT")

/-- Tier chosen by `executeUpdate` (src/services/supabase.ts line 321). -/
def executeUpdateTier (p : Policy) : CredentialTier :=
  tierOfFlag (shouldUseServiceKey p "UPDATE")

/-- Tier chosen by `executeDelete` (src/services/supabase.ts line 370). -/
def executeDeleteTier (p : Policy) : CredentialTier :=
  tierOfFlag (shouldUseServiceKey p "DELETE")

/-- Tier used by `executeSqlQuery` (src/services/supabase.ts line 160):
it always calls `getSupabaseClient()`, the standard client, with no
consultation of the policy. -/
def executeSqlQueryTier (_p : Policy) : CredentialTier :=
  CredentialTier.Standard

/-! ## Data model -/

/-- The key/value entries of a JSON object argument (`values`, `filter`);
scalar values are opaque strings for this development. -/
abbrev Entries := List (String × String)

/-- A dynamically typed tool-call argument: absent (or null), present but
of the wrong JavaScript type, or a well-typed value. -/
inductive ArgVal (α : Type) where
  | absent
  | wrongType
  | val (a : α)
deriving DecidableEq, Repr

/-- The check `!x || typeof x !== object-type || Object.keys(x).length === 0`
applied to an object argument. -/
def objArgInvalid : ArgVal Entries → Bool
  | ArgVal.absent => true
  | ArgVal.wrongType => true
  | ArgVal.val l => l.isEmpty

/-- Extract the value of an argument, with a default for the unreachable
non-value cases (models the TypeScript non-null assertion). -/
def ArgVal.getD {α : Type} : ArgVal α → α → α
  | ArgVal.val a, _ => a
  | _, d => d

/-- The normalized backend result shape: both fields optional, an absent
`error` meaning success (the `{ data, error }` shape every executor in
src/services/supabase.ts returns). -/
structure ExecResult where
  data : Option String
  error : Option String
deriving DecidableEq, Repr

/-- A sanitized batch operation, as pushed by the batch validation loop
(src/services/mcp-handlers.ts lines 622-628): lowercased type, sanitized
table, the raw values/filter arguments and the defaulted returning
projection. -/
structure SanOp where
  type : String
  table : String
  values : ArgVal Entries
  filter : ArgVal Entries
  returning : String
deriving DecidableEq, Repr

/-- A raw batch operation as received by `batchOperations`, before
validation. -/
structure RawOperation where
  type : Option String
  table : Option String
  values : ArgVal Entries
  filter : ArgVal Entries
  returning : Option String
deriving DecidableEq, Repr

/-- Reply of the remote `execute_transaction` procedure call:
either the rpc reported an error, or it returned a payload that is an
array of per-operation results (`some`) or null / not an array (`none`). -/
inductive RpcReply where
  | failure (err : String)
  | payload (data : Option (List ExecResult))
deriving DecidableEq, Repr

/-- A backend call issued by an executor; recorded so that theorems can
speak about which backend operations were attempted. -/
inductive BackendCall where
  | rpcQuery (sql : Option String)
  | rpcWrite (sql : String)
  | insert (table : String) (values : Entries) (returning : String)
  | update (table : String) (values : Entries) (filter : Entries) (returning : String)
  | delete (table : String) (filter : Entries) (returning : String)
  | rpcTransaction (operations : List SanOp)
deriving DecidableEq, Repr

/-- The abstract backend: what each kind of backend call returns.  The
adapter under verification treats these replies as opaque. -/
structure Backend where
  runQuery : Option String → ExecResult
  runWrite : String → ExecResult
  runInsert : String → Entries → String → ExecResult
  runUpdate : String → Entries → Entries → String → ExecResult
  runDelete : String → Entries → String → ExecResult
  runTx : List SanOp → RpcReply

/-! ## Operation executors (src/services/supabase.ts) -/

/-- `executeSqlQuery` (lines 159-177): one rpc call, result returned as
is (its try/catch only normalizes a thrown fault into the same shape). -/
def executeSqlQuery (b : Backend) (sql : Option String) : ExecResult × List BackendCall :=
  (b.runQuery sql, [BackendCall.rpcQuery sql])

/-- A single quote character, for building the schema query text. -/
def squote : String := String.mk [Char.ofNat 39]

/-- The SQL text built by `getTableSchema` around the sanitized name. -/
def schemaQuerySql (t : String) : String :=
  "SELECT column_name, data_type FROM information_schema.columns WHERE table_name = "
    ++ squote ++ t ++ squote

/-- `getTableSchema` (lines 250-266): sanitizes the table name, then runs
the schema query through `executeSqlQuery` with the sanitized name
interpolated.  Note that it does not compare the sanitized name with the
input: it proceeds with whatever the sanitizer produced. -/
def getTableSchema (b : Backend) (tableName : String) : ExecResult × List BackendCall :=
  let sanitizedTableName := sanitizeIdent tableName
  executeSqlQuery b (some (schemaQuerySql sanitizedTableName))

/-- `executeWriteSqlQuery` (lines 183-216), data path only: one rpc call
to the write procedure. -/
def executeWriteSqlQuery (b : Backend) (sql : String) : ExecResult × List BackendCall :=
  (b.runWrite sql, [BackendCall.rpcWrite sql])

/-- `executeInsert` (lines 272-308), data path: a single structured
insert call; the backend reply is already in normalized shape. -/
def executeInsert (b : Backend) (table : String) (values : Entries) (returning : String) :
    ExecResult × List BackendCall :=
  (b.runInsert table values returning, [BackendCall.insert table values returning])

/-- `executeUpdate` (lines 314-358), data path: a single structured
update call with all filter entries applied as equality conditions. -/
def executeUpdate (b : Backend) (table : String) (values filter : Entries) (returning : String) :
    ExecResult × List BackendCall :=
  (b.runUpdate table values filter returning, [BackendCall.update table values filter returning])

/-- `executeDelete` (lines 364-417), data path: rejects an empty filter
before any backend contact, otherwise a single structured delete call. -/
def executeDelete (b : Backend) (table : String) (filter : Entries) (returning : String) :
    ExecResult × List BackendCall :=
  if filter.isEmpty then
    ({ data := none,
       error := some "Delete operations require a filter to prevent accidental deletion of all records" },
     [])
  else
    (b.runDelete table filter returning, [BackendCall.delete table filter returning])

/-! ## executeTransaction (src/services/supabase.ts lines 423-525) -/

/-- One entry of the transactional result array built by the loop at
lines 498-508. -/
structure TxResultEntry where
  success : Bool
  operation : SanOp
  data : Option String
  error : Option String
deriving DecidableEq, Repr

/-- The value returned by `executeTransaction`. -/
structure TxResult where
  success : Bool
  results : List TxResultEntry
  error : Option String
deriving DecidableEq, Repr

/-- The zip loop of lines 498-508: reads `data[i]` for every operation
index.  When the reply array is shorter than the operation list the
original code dereferences an undefined element and throws, which the
surrounding catch turns into the unexpected-error result; that exceptional
exit is modelled by `none`. -/
def zipTxResults : List SanOp → List ExecResult → Option (List TxResultEntry)
  | [], _ => some []
  | _ :: _, [] => none
  | op :: ops, r :: rs =>
    (zipTxResults ops rs).map fun rest =>
      { success := r.error.isNone, operation := op, data := r.data, error := r.error } :: rest

/-- `executeTransaction`, result shape (lines 469-524): an rpc error gives
the generic failure; a null or non-array payload gives the distinct
availability error naming the missing `execute_transaction` function; an
array payload is zipped against the operations and the overall success is
set to true unconditionally (line 511), the rpc call itself having
succeeded. -/
def executeTransaction (reply : RpcReply) (operations : List SanOp) : TxResult :=
  match reply with
  | RpcReply.failure _ =>
    { success := false, results := [], error := some "Transaction failed" }
  | RpcReply.payload none =>
    { success := false, results := [],
      error := some "Transaction failed - execute_transaction RPC function not available" }
  | RpcReply.payload (some data) =>
    match zipTxResults operations data with
    | none =>
      { success := false, results := [],
        error := some "Transaction failed due to an unexpected error" }
    | some results => { success := true, results := results, error := none }

/-- `executeTransaction` with its backend call recorded: exactly one rpc
call to the transactional procedure. -/
def executeTransactionInstr (b : Backend) (operations : List SanOp) :
    TxResult × List BackendCall :=
  (executeTransaction (b.runTx operations) operations, [BackendCall.rpcTransaction operations])

/-- Tier selection of `executeTransaction` (lines 441-455): one decision
for the whole batch, from the presence of each operation kind and the
corresponding `shouldUseServiceKey` answer. -/
def executeTransactionUseServiceRole (p : Policy) (operations : List SanOp) : Bool :=
  let hasInsert := operations.any fun op => op.type == "insert"
  let hasUpdate := operations.any fun op => op.type == "update"
  let hasDelete := operations.any fun op => op.type == "delete"
  (hasInsert && shouldUseServiceKey p "INSERT") ||
  (hasUpdate && shouldUseServiceKey p "UPDATE") ||
  (hasDelete && shouldUseServiceKey p "DELETE")

/-- The tier the whole transactional batch executes under. -/
def executeTransactionTier (p : Policy) (operations : List SanOp) : CredentialTier :=
  tierOfFlag (executeTransactionUseServiceRole p operations)

/-- The tier a batch operation would use if executed individually: the
sequential executor dispatches insert, update and delete to
`executeInsert`, `executeUpdate` and `executeDelete`, whose tiers are the
per-verb tier functions above; any other type makes no backend call. -/
def singleOpTier (p : Policy) (op : SanOp) : CredentialTier :=
  if op.type = "insert" then executeInsertTier p
  else if op.type = "update" then executeUpdateTier p
  else if op.type = "delete" then executeDeleteTier p
  else CredentialTier.Standard

/-! ## Tool responses (src/services/mcp-handlers.ts) -/

/-- One indexed validation error pushed by the batch validation loop. -/
structure IndexedError where
  index : Nat
  error : String
deriving DecidableEq, Repr

/-- One entry of the sequential (non-transactional) results array
(lines 705-710 and 732-736). -/
structure SeqEntry where
  success : Bool
  operation : SanOp
  data : Option String
  error : Option String
deriving DecidableEq, Repr

/-- One entry of the sequential errors array (lines 714-719). -/
structure SeqError where
  index : Nat
  type : String
  table : String
  error : String
deriving DecidableEq, Repr

/-- The JSON body of a tool response, by shape: the plain error envelope,
the query data envelope, the single-operation success envelope, the batch
validation failure (which carries the literal success false), the
transactional batch result and the sequential batch result. -/
inductive RespBody where
  | errMsg (message : String)
  | queryData (data : Option String)
  | simpleSuccess (message : String) (data : Option String)
  | batchValidationFailure (message : String) (errors : List IndexedError)
  | batchTxResult (success : Bool) (message : String)
      (results : List TxResultEntry) (error : Option String)
  | batchSeqResult (success : Bool) (message : String)
      (results : List SeqEntry) (errors : List SeqError)
deriving DecidableEq, Repr

/-- A normalized tool response: the protocol-level error flag and the
serialized body. -/
structure ToolResponse where
  isError : Bool
  body : RespBody
deriving DecidableEq, Repr

/-- The error envelope every handler branch returns for a caught fault:
`isError: true` with an error/message JSON body. -/
def errResp (message : String) : ToolResponse :=
  { isError := true, body := RespBody.errMsg message }

/-! ## Single-operation handlers (handleCallTool branches) -/

/-- The `query` branch (lines 269-301): runs the SQL through
`executeSqlQuery` and maps the normalized result onto the envelope. -/
def handleQuery (b : Backend) (sql : Option String) : ToolResponse × List BackendCall :=
  let r := executeSqlQuery b sql
  match (r.1).error with
  | some e => (errResp e, r.2)
  | none => ({ isError := false, body := RespBody.queryData (r.1).data }, r.2)

/-- The `createTable` branch (lines 302-346): requires the statement text
to contain CREATE TABLE case-insensitively, then dispatches through the
write procedure.  An absent `sql` makes the original code dereference
undefined inside the try block; the catch turns that into the error
envelope. -/
def handleCreateTable (b : Backend) (sql : Option String) : ToolResponse × List BackendCall :=
  match sql with
  | none => (errResp "Cannot read properties of undefined", [])
  | some s =>
    if !(strIncludes (jsToUpperCase s) "CREATE TABLE") then
      (errResp "SQL statement must be a CREATE TABLE statement", [])
    else
      let r := executeWriteSqlQuery b s
      match (r.1).error with
      | some e => (errResp e, r.2)
      | none =>
        ({ isError := false,
           body := RespBody.simpleSuccess "Table created successfully" (r.1).data }, r.2)

/-- The `insertRecord` branch (lines 347-419): table presence, values
shape, sanitizer equality, then `executeInsert`. -/
def handleInsertRecord (b : Backend) (table : Option String) (values : ArgVal Entries)
    (returning : Option String) : ToolResponse × List BackendCall :=
  if jsFalsyStr table then (errResp "Table name is required", [])
  else
    let t := table.getD ""
    if objArgInvalid values then
      (errResp "Values object is required and must contain at least one key-value pair", [])
    else if sanitizeIdent t ≠ t then
      (errResp "Invalid table name. Table names can only contain alphanumeric characters and underscores.", [])
    else
      let r := executeInsert b (sanitizeIdent t) (values.getD []) (returning.getD "*")
      match (r.1).error with
      | some e => (errResp e, r.2)
      | none =>
        ({ isError := false,
           body := RespBody.simpleSuccess ("Record inserted into " ++ t ++ " successfully") (r.1).data },
         r.2)

/-- The `updateRecord` branch (lines 420-485): table presence, values
shape, filter shape, sanitizer equality, then `executeUpdate`. -/
def handleUpdateRecord (b : Backend) (table : Option String) (values filter : ArgVal Entries)
    (returning : Option String) : ToolResponse × List BackendCall :=
  if jsFalsyStr table then (errResp "Table name is required", [])
  else
    let t := table.getD ""
    if objArgInvalid values then
      (errResp "Values object is required and must contain at least one key-value pair", [])
    else if objArgInvalid filter then
      (errResp "Filter object is required and must contain at least one key-value pair", [])
    else if sanitizeIdent t ≠ t then
      (errResp "Invalid table name. Table names can only contain alphanumeric characters and underscores.", [])
    else
      let r := executeUpdate b (sanitizeIdent t) (values.getD []) (filter.getD []) (returning.getD "*")
      match (r.1).error with
      | some e => (errResp e, r.2)
      | none =>
        ({ isError := false,
           body := RespBody.simpleSuccess ("Records in " ++ t ++ " updated successfully") (r.1).data },
         r.2)

/-- The `deleteRecord` branch (lines 486-552): table presence, filter
shape, sanitizer equality, the redundant empty-filter re-check of
line 508, then `executeDelete`. -/
def handleDeleteRecord (b : Backend) (table : Option String) (filter : ArgVal Entries)
    (returning : Option String) : ToolResponse × List BackendCall :=
  if jsFalsyStr table then (errResp "Table name is required", [])
  else
    let t := table.getD ""
    if objArgInvalid filter then
      (errResp "Filter object is required and must contain at least one key-value pair", [])
    else if sanitizeIdent t ≠ t then
      (errResp "Invalid table name. Table names can only contain alphanumeric characters and underscores.", [])
    else if (filter.getD []).isEmpty then
      (errResp "Delete operations require a filter to prevent accidental deletion of all records", [])
    else
      let r := executeDelete b (sanitizeIdent t) (filter.getD []) (returning.getD "*")
      match (r.1).error with
      | some e => (errResp e, r.2)
      | none =>
        ({ isError := false,
           body := RespBody.simpleSuccess ("Records in " ++ t ++ " deleted successfully") (r.1).data },
         r.2)

/-! ## Batch coordinator (lines 553-765) -/

/-- Per-operation validation of the loop body (lines 566-629): the first
failing check yields the recorded error, a fully valid operation yields
its sanitized form. -/
def validateOp (op : RawOperation) : Except String SanOp :=
  if jsFalsyStr op.type then Except.error "Operation type is required"
  else if jsFalsyStr op.table then Except.error "Table name is required"
  else
    let table := op.table.getD ""
    let ty := op.type.getD ""
    if sanitizeIdent table ≠ table then
      Except.error "Invalid table name. Table names can only contain alphanumeric characters and underscores."
    else if jsToLowerCase ty = "insert" then
      if objArgInvalid op.values then Except.error "Values object is required for insert operations"
      else Except.ok ⟨jsToLowerCase ty, sanitizeIdent table, op.values, op.filter, op.returning.getD "*"⟩
    else if jsToLowerCase ty = "update" then
      if objArgInvalid op.values then Except.error "Values object is required for update operations"
      else if objArgInvalid op.filter then Except.error "Filter object is required for update operations"
      else Except.ok ⟨jsToLowerCase ty, sanitizeIdent table, op.values, op.filter, op.returning.getD "*"⟩
    else if jsToLowerCase ty = "delete" then
      if objArgInvalid op.filter then Except.error "Filter object is required for delete operations"
      else Except.ok ⟨jsToLowerCase ty, sanitizeIdent table, op.values, op.filter, op.returning.getD "*"⟩
    else Except.error ("Unknown operation type: " ++ ty)

/-- The validation loop (lines 563-629): walks every operation with its
index, collecting the sanitized operations and the indexed errors, both
in input order; a failing entry never halts the examination of later
entries. -/
def validateOperations (i : Nat) : List RawOperation → List SanOp × List IndexedError
  | [] => ([], [])
  | op :: rest =>
    let tail := validateOperations (i + 1) rest
    match validateOp op with
    | Except.error e => (tail.1, ⟨i, e⟩ :: tail.2)
    | Except.ok s => (s :: tail.1, tail.2)

/-- The sequential dispatch of one validated operation (lines 682-702):
the same single-operation executors used by the individual tools, with an
unknown type producing a local error and no backend call. -/
def execOpSeq (b : Backend) (op : SanOp) : ExecResult × List BackendCall :=
  if op.type = "insert" then
    executeInsert b op.table (op.values.getD []) op.returning
  else if op.type = "update" then
    executeUpdate b op.table (op.values.getD []) (op.filter.getD []) op.returning
  else if op.type = "delete" then
    executeDelete b op.table (op.filter.getD []) op.returning
  else
    ({ data := none, error := some ("Unknown operation type: " ++ op.type) }, [])

/-- Builds one sequential results entry from an operation and its own
executor result (lines 705-710). -/
def mkSeqEntry (op : SanOp) (r : ExecResult) : SeqEntry :=
  { success := r.error.isNone, operation := op, data := r.data, error := r.error }

/-- The sequential execution loop (lines 674-738): strictly in input
order, one results entry per operation, an indexed errors entry for every
failing operation, and the concatenation of the backend calls each
operation issued. -/
def runSequential (b : Backend) (i : Nat) :
    List SanOp → List SeqEntry × List SeqError × List BackendCall
  | [] => ([], [], [])
  | op :: rest =>
    let r := execOpSeq b op
    let tail := runSequential b (i + 1) rest
    let errsHere : List SeqError :=
      match (r.1).error with
      | some e => [⟨i, op.type, op.table, e⟩]
      | none => []
    (mkSeqEntry op r.1 :: tail.1, errsHere ++ tail.2.1, r.2 ++ tail.2.2)

/-- The `batchOperations` branch (lines 553-765): argument-shape check,
exhaustive validation with rejection of any error, then transactional or
sequential dispatch. -/
def handleBatchOperations (b : Backend) (operations : ArgVal (List RawOperation))
    (useTransaction : Option Bool) : ToolResponse × List BackendCall :=
  match operations with
  | ArgVal.absent =>
    (errResp "Operations array is required and must contain at least one operation", [])
  | ArgVal.wrongType =>
    (errResp "Operations array is required and must contain at least one operation", [])
  | ArgVal.val ops =>
    if ops.isEmpty then
      (errResp "Operations array is required and must contain at least one operation", [])
    else
      let v := validateOperations 0 ops
      if !v.2.isEmpty then
        ({ isError := true,
           body := RespBody.batchValidationFailure
             ("Validation failed for " ++ toString v.2.length ++ " operations") v.2 }, [])
      else if useTransaction.getD true then
        let tr := executeTransactionInstr b v.1
        ({ isError := !(tr.1).success,
           body := RespBody.batchTxResult (tr.1).success
             (if (tr.1).success then
                "Successfully executed " ++ toString v.1.length ++ " operations in a transaction"
              else
                "Transaction failed: " ++ ((tr.1).error.getD "Unknown error"))
             (tr.1).results (tr.1).error }, tr.2)
      else
        let r := runSequential b 0 v.1
        ({ isError := !(r.2.1).isEmpty,
           body := RespBody.batchSeqResult (r.2.1).isEmpty
             ("Processed " ++ toString v.1.length ++ " operations with "
               ++ toString (r.2.1).length ++ " errors")
             r.1 r.2.1 }, r.2.2)

/-! ## Tool dispatch (handleCallTool, lines 266-769) -/

/-- A parsed tool-call request, one constructor per recognized tool name
plus the unrecognized case. -/
inductive ToolRequest where
  | query (sql : Option String)
  | createTable (sql : Option String)
  | insertRecord (table : Option String) (values : ArgVal Entries) (returning : Option String)
  | updateRecord (table : Option String) (values : ArgVal Entries) (filter : ArgVal Entries)
      (returning : Option String)
  | deleteRecord (table : Option String) (filter : ArgVal Entries) (returning : Option String)
  | batchOperations (operations : ArgVal (List RawOperation)) (useTransaction : Option Bool)
  | unknownTool (name : String)

/-- Whether the request names one of the six recognized tools. -/
def ToolRequest.isKnownTool : ToolRequest → Bool
  | ToolRequest.unknownTool _ => false
  | _ => true

/-- `handleCallTool`: every recognized branch returns a normalized
response through its own try/catch; the fall-through for an unrecognized
tool name (line 768) throws, modelled by the `Except.error` case, which is
an exception escaping to the protocol layer. -/
def handleCallTool (b : Backend) : ToolRequest → Except String (ToolResponse × List BackendCall)
  | ToolRequest.query sql => Except.ok (handleQuery b sql)
  | ToolRequest.createTable sql => Except.ok (handleCreateTable b sql)
  | ToolRequest.insertRecord table values returning =>
    Except.ok (handleInsertRecord b table values returning)
  | ToolRequest.updateRecord table values filter returning =>
    Except.ok (handleUpdateRecord b table values filter returning)
  | ToolRequest.deleteRecord table filter returning =>
    Except.ok (handleDeleteRecord b table filter returning)
  | ToolRequest.batchOperations operations useTransaction =>
    Except.ok (handleBatchOperations b operations useTransaction)
  | ToolRequest.unknownTool name => Except.error ("Unknown tool: " ++ name)

/-! ## Concrete backends for witnesses and counterexamples -/

/-- A backend on which every call succeeds and the transactional
procedure is unavailable. -/
def testBackend : Backend :=
  { runQuery := fun _ => { data := some "rows", error := none }
    runWrite := fun _ => { data := some "done", error := none }
    runInsert := fun _ _ _ => { data := some "inserted", error := none }
    runUpdate := fun _ _ _ _ => { data := some "updated", error := none }
    runDelete := fun _ _ _ => { data := some "deleted", error := none }
    runTx := fun _ => RpcReply.payload none }

/-- A backend on which delete calls fail and everything else succeeds. -/
def failingDeleteBackend : Backend :=
  { runQuery := fun _ => { data := some "rows", error := none }
    runWrite := fun _ => { data := some "done", error := none }
    runInsert := fun _ _ _ => { data := some "inserted", error := none }
    runUpdate := fun _ _ _ _ => { data := some "updated", error := none }
    runDelete := fun _ _ _ => { data := none, error := some "relation does not exist" }
    runTx := fun _ => RpcReply.payload none }

/-! ## Helper lemmas -/

/-- INSERT starts with none of CREATE, UPDATE, ALTER, DELETE, so the key
check falls through to false for every policy. -/
theorem suk_insert (p : Policy) : shouldUseServiceKey p "INSERT" = false := rfl

/-- For UPDATE the key check reduces to the negated update flag. -/
theorem suk_update (p : Policy) : shouldUseServiceKey p "UPDATE" = !p.allowUpdate := by
  obtain ⟨c, u, d⟩ := p
  cases u <;> rfl

/-- For DELETE the key check reduces to the negated delete flag. -/
theorem suk_delete (p : Policy) : shouldUseServiceKey p "DELETE" = !p.allowDelete := by
  obtain ⟨c, u, d⟩ := p
  cases u <;> cases d <;> rfl

/-- A string of characters inside the sanitizer class is left unchanged. -/
theorem sanitizeIdent_eq_self (s : String) (h : ∀ c ∈ s.toList, isIdentChar c = true) :
    sanitizeIdent s = s := by
  unfold sanitizeIdent
  rw [List.filter_eq_self.mpr h]
  cases s
  rfl

/-- A string containing a character outside the sanitizer class is
changed by sanitization. -/
theorem sanitizeIdent_ne_self (s : String) (c : Char) (hc : c ∈ s.toList)
    (hbad : isIdentChar c = false) : sanitizeIdent s ≠ s := by
  intro he
  have h2 : s.toList.filter isIdentChar = s.toList := by
    have h3 := congrArg String.toList he
    simpa [sanitizeIdent] using h3
  have h4 := List.filter_eq_self.mp h2 c hc
  rw [hbad] at h4
  exact Bool.false_ne_true h4

/-- `tierOfFlag` is the privileged tier exactly on true. -/
theorem tierOfFlag_eq_privileged (b : Bool) :
    tierOfFlag b = CredentialTier.Privileged ↔ b = true := by
  cases b <;> simp [tierOfFlag]

/-- The zip of the transactional reply succeeds whenever the reply array
is at least as long as the operation list. -/
theorem zipTxResults_isSome : ∀ (ops : List SanOp) (data : List ExecResult),
    ops.length ≤ data.length → ∃ rs, zipTxResults ops data = some rs
  | [], _, _ => ⟨[], rfl⟩
  | _ :: _, [], h => absurd h (by simp)
  | op :: ops, r :: rs, h => by
    obtain ⟨tail, ht⟩ := zipTxResults_isSome ops rs (by simpa using h)
    refine ⟨{ success := r.error.isNone, operation := op,
              data := r.data, error := r.error } :: tail, ?_⟩
    simp [zipTxResults, ht]

/-! ## C1 -/

/-- C1 counterexample: with all permission flags false (so
allowCreateWithStandard is false), the tier selected for an Insert is
still Standard, not Privileged: the string INSERT matches none of the
CREATE / UPDATE / ALTER / DELETE prefixes in shouldUseServiceKey. -/
theorem c1_insert_tier_counterexample :
    (Policy.mk false false false).allowCreate = false ∧
    executeInsertTier (Policy.mk false false false) = CredentialTier.Standard ∧
    executeInsertTier (Policy.mk false false false) ≠ CredentialTier.Privileged := by
  refine ⟨rfl, rfl, ?_⟩
  decide

/-- C1 (amended): for every policy, the Insert executor always selects
the Standard tier regardless of the create flag; Update is Privileged iff
the update flag is false, Delete is Privileged iff the delete flag is
false, and a plain Query always selects the Standard tier. -/
theorem c1_tier_selection (p : Policy) :
    executeInsertTier p = CredentialTier.Standard ∧
    (executeUpdateTier p = CredentialTier.Privileged ↔ p.allowUpdate = false) ∧
    (executeDeleteTier p = CredentialTier.Privileged ↔ p.allowDelete = false) ∧
    executeSqlQueryTier p = CredentialTier.Standard := by
  refine ⟨rfl, ?_, ?_, rfl⟩
  · rw [executeUpdateTier, suk_update, tierOfFlag_eq_privileged]
    cases p.allowUpdate <;> simp
  · rw [executeDeleteTier, suk_delete, tierOfFlag_eq_privileged]
    cases p.allowDelete <;> simp

/-! ## C6 -/

/-- C6: the transactional batch computes one tier for the whole batch,
and it is Privileged exactly when some contained operation would
individually require the Privileged tier; in particular a batch mixing a
standard-allowed operation with a privileged-requiring one runs entirely
under Privileged credentials. -/
theorem c6_batch_tier (p : Policy) (ops : List SanOp) :
    executeTransactionTier p ops = CredentialTier.Privileged ↔
      ∃ op ∈ ops, singleOpTier p op = CredentialTier.Privileged := by
  rw [executeTransactionTier, tierOfFlag_eq_privileged, executeTransactionUseServiceRole]
  simp only [Bool.or_eq_true, Bool.and_eq_true, List.any_eq_true, beq_iff_eq]
  constructor
  · rintro ((⟨⟨op, hop, hty⟩, hkey⟩ | ⟨⟨op, hop, hty⟩, hkey⟩) | ⟨⟨op, hop, hty⟩, hkey⟩) <;>
      refine ⟨op, hop, ?_⟩ <;>
      simp [singleOpTier, hty, executeInsertTier, executeUpdateTier, executeDeleteTier,
        hkey, tierOfFlag]
  · rintro ⟨op, hop, hpriv⟩
    by_cases h1 : op.type = "insert"
    · simp [singleOpTier, h1, executeInsertTier, tierOfFlag_eq_privileged] at hpriv
      exact Or.inl (Or.inl ⟨⟨op, hop, h1⟩, hpriv⟩)
    · by_cases h2 : op.type = "update"
      · simp [singleOpTier, h1, h2, executeUpdateTier, tierOfFlag_eq_privileged] at hpriv
        exact Or.inl (Or.inr ⟨⟨op, hop, h2⟩, hpriv⟩)
      · by_cases h3 : op.type = "delete"
        · simp [singleOpTier, h1, h2, h3, executeDeleteTier, tierOfFlag_eq_privileged] at hpriv
          exact Or.inr ⟨⟨op, hop, h3⟩, hpriv⟩
        · simp [singleOpTier, h1, h2, h3] at hpriv

/-! ## C2 -/

/-- C2: whenever the remote transactional rpc returns successfully with
an array reply covering every operation, the envelope reports overall
success (with no overall error), regardless of any per-entry error
markers inside the reply. -/
theorem c2_tx_success_from_rpc (ops : List SanOp) (data : List ExecResult)
    (h : ops.length ≤ data.length) :
    (executeTransaction (RpcReply.payload (some data)) ops).success = true ∧
    (executeTransaction (RpcReply.payload (some data)) ops).error = none := by
  obtain ⟨rs, hrs⟩ := zipTxResults_isSome ops data h
  rw [executeTransaction, hrs]
  exact ⟨rfl, rfl⟩

/-- C2 witness: a one-operation batch whose reply entry carries an error
marker is still reported as an overall success. -/
theorem c2_tx_success_witness :
    ([⟨"insert", "t", ArgVal.val [("a", "1")], ArgVal.absent, "*"⟩] : List SanOp).length ≤
      ([⟨none, some "row violates constraint"⟩] : List ExecResult).length ∧
    (executeTransaction (RpcReply.payload (some [⟨none, some "row violates constraint"⟩]))
      [⟨"insert", "t", ArgVal.val [("a", "1")], ArgVal.absent, "*"⟩]).success = true :=
  ⟨by decide, (c2_tx_success_from_rpc _ _ (by decide)).1⟩

/-! ## C8 -/

/-- C8: a transactional batch whose remote procedure is unavailable
(null or non-array payload) yields success false with the distinct
availability error naming the execute_transaction dependency, and that
message differs from the generic failure used when the rpc itself
errors. -/
theorem c8_unavailable_distinct_error (ops : List SanOp) (e : String) :
    executeTransaction (RpcReply.payload none) ops =
      { success := false, results := [],
        error := some "Transaction failed - execute_transaction RPC function not available" } ∧
    strIncludes "Transaction failed - execute_transaction RPC function not available"
      "execute_transaction" = true ∧
    (executeTransaction (RpcReply.failure e) ops).error = some "Transaction failed" ∧
    ("Transaction failed - execute_transaction RPC function not available" : String) ≠
      "Transaction failed" := by
  refine ⟨rfl, by decide, rfl, by decide⟩

/-! ## C10 -/

/-- C10: a batchOperations call whose operations argument is missing, not
an array, or an empty array is rejected with the plain error envelope,
with no backend call; the body is the pre-validation error message, not a
validation result. -/
theorem c10_empty_batch_rejected (b : Backend) (useTx : Option Bool) :
    handleBatchOperations b ArgVal.absent useTx =
      (errResp "Operations array is required and must contain at least one operation", []) ∧
    handleBatchOperations b ArgVal.wrongType useTx =
      (errResp "Operations array is required and must contain at least one operation", []) ∧
    handleBatchOperations b (ArgVal.val []) useTx =
      (errResp "Operations array is required and must contain at least one operation", []) :=
  ⟨rfl, rfl, rfl⟩

/-! ## C5 -/

/-- C5: a deleteRecord or updateRecord call whose filter mapping is
absent, not an object, or empty fails validation with an error envelope
and issues no backend call at all. -/
theorem c5_empty_filter_rejected (b : Backend) (table : Option String)
    (values filter : ArgVal Entries) (returning : Option String)
    (h : objArgInvalid filter = true) :
    ((handleDeleteRecord b table filter returning).1.isError = true ∧
     (handleDeleteRecord b table filter returning).2 = []) ∧
    ((handleUpdateRecord b table values filter returning).1.isError = true ∧
     (handleUpdateRecord b table values filter returning).2 = []) := by
  constructor
  · unfold handleDeleteRecord
    split_ifs <;> exact ⟨rfl, rfl⟩
  · unfold handleUpdateRecord
    split_ifs <;> exact ⟨rfl, rfl⟩

/-- C5 witness: an empty filter on a concrete delete and update call is
rejected with no backend call. -/
theorem c5_empty_filter_witness :
    objArgInvalid (ArgVal.val ([] : Entries)) = true ∧
    (handleDeleteRecord testBackend (some "users") (ArgVal.val []) none).1.isError = true ∧
    (handleDeleteRecord testBackend (some "users") (ArgVal.val []) none).2 = [] ∧
    (handleUpdateRecord testBackend (some "users") (ArgVal.val [("a", "1")])
      (ArgVal.val []) none).1.isError = true ∧
    (handleUpdateRecord testBackend (some "users") (ArgVal.val [("a", "1")])
      (ArgVal.val []) none).2 = [] := by
  have h5 := c5_empty_filter_rejected testBackend (some "users") (ArgVal.val [("a", "1")])
    (ArgVal.val []) none (by decide)
  exact ⟨by decide, h5.1.1, h5.1.2, h5.2.1, h5.2.2⟩

/-! ## C4 -/

/-- The error list of the validation loop enumerates exactly the invalid
operations, each with its input index, in input order. -/
theorem validateOperations_snd : ∀ (i : Nat) (ops : List RawOperation),
    (validateOperations i ops).2 =
      (List.enumFrom i ops).filterMap fun pr =>
        match validateOp pr.2 with
        | Except.error e => some ⟨pr.1, e⟩
        | Except.ok _ => none
  | _, [] => rfl
  | i, op :: rest => by
    have ih := validateOperations_snd (i + 1) rest
    cases hv : validateOp op <;>
      simp [validateOperations, hv, ih, List.enumFrom_cons, List.filterMap_cons]

/-- The validation loop partitions the input: sanitized operations plus
recorded errors account for every input entry. -/
theorem validateOperations_lengths : ∀ (i : Nat) (ops : List RawOperation),
    (validateOperations i ops).1.length + (validateOperations i ops).2.length = ops.length
  | _, [] => rfl
  | i, op :: rest => by
    have ih := validateOperations_lengths (i + 1) rest
    cases hv : validateOp op <;> simp [validateOperations, hv] <;> omega

/-- C4: when any batch entry is invalid, the whole batch is rejected with
the full indexed error list and zero backend calls; the error list
enumerates exactly the invalid entries, later entries being examined even
after an earlier failure. -/
theorem c4_batch_validation_exhaustive (b : Backend) (ops : List RawOperation)
    (useTx : Option Bool) (h : (validateOperations 0 ops).2 ≠ []) :
    handleBatchOperations b (ArgVal.val ops) useTx =
      ({ isError := true,
         body := RespBody.batchValidationFailure
           ("Validation failed for " ++ toString (validateOperations 0 ops).2.length
             ++ " operations")
           (validateOperations 0 ops).2 }, []) ∧
    (validateOperations 0 ops).2 =
      (List.enumFrom 0 ops).filterMap fun pr =>
        match validateOp pr.2 with
        | Except.error e => some ⟨pr.1, e⟩
        | Except.ok _ => none := by
  refine ⟨?_, validateOperations_snd 0 ops⟩
  rcases ops with _ | ⟨o, os⟩
  · simp [validateOperations] at h
  · have hne2 : (validateOperations 0 (o :: os)).2.isEmpty = false :=
      List.isEmpty_eq_false.mpr h
    simp [handleBatchOperations, hne2]

/-- A four-operation batch whose entries at indices 1 and 3 are invalid
(a missing table name and an empty delete filter). -/
def batchWithTwoInvalid : List RawOperation :=
  [ { type := some "insert", table := some "users", values := ArgVal.val [("a", "1")],
      filter := ArgVal.absent, returning := none },
    { type := some "insert", table := none, values := ArgVal.val [("a", "1")],
      filter := ArgVal.absent, returning := none },
    { type := some "insert", table := some "users", values := ArgVal.val [("b", "2")],
      filter := ArgVal.absent, returning := none },
    { type := some "delete", table := some "users", values := ArgVal.absent,
      filter := ArgVal.val [], returning := none } ]

/-- C4 witness: on the concrete batch the collected error list has
exactly the indices 1 and 3 and the handler makes zero backend calls. -/
theorem c4_batch_validation_witness :
    (validateOperations 0 batchWithTwoInvalid).2 ≠ [] ∧
    (handleBatchOperations testBackend (ArgVal.val batchWithTwoInvalid) none).2 = [] ∧
    (handleBatchOperations testBackend (ArgVal.val batchWithTwoInvalid) none).1.isError = true ∧
    (validateOperations 0 batchWithTwoInvalid).2.map IndexedError.index = [1, 3] := by
  have h4 := c4_batch_validation_exhaustive testBackend batchWithTwoInvalid none (by decide)
  refine ⟨by decide, ?_, ?_, by decide⟩
  · rw [h4.1]
  · rw [h4.1]

/-! ## C9 -/

/-- The sequential loop produces one results entry per operation, in
input order, each built solely from that operation and its own executor
result. -/
theorem runSequential_results (b : Backend) : ∀ (i : Nat) (ops : List SanOp),
    (runSequential b i ops).1 = ops.map fun op => mkSeqEntry op (execOpSeq b op).1
  | _, [] => rfl
  | i, op :: rest => by
    have ih := runSequential_results b (i + 1) rest
    simp [runSequential, ih]

/-- The sequential loop issues exactly the backend calls of each
operation executor, concatenated in input order. -/
theorem runSequential_calls (b : Backend) : ∀ (i : Nat) (ops : List SanOp),
    (runSequential b i ops).2.2 = ops.flatMap fun op => (execOpSeq b op).2
  | _, [] => rfl
  | i, op :: rest => by
    have ih := runSequential_calls b (i + 1) rest
    simp [runSequential, ih, List.flatMap_cons]

/-- The sequential error list is empty exactly when every operation
executor reported no error. -/
theorem runSequential_errors_nil_iff (b : Backend) : ∀ (i : Nat) (ops : List SanOp),
    (runSequential b i ops).2.1 = [] ↔ ∀ op ∈ ops, (execOpSeq b op).1.error = none
  | _, [] => by simp [runSequential]
  | i, op :: rest => by
    have ih := runSequential_errors_nil_iff b (i + 1) rest
    cases he : (execOpSeq b op).1.error <;> simp [runSequential, he, ih]

/-- C9: a validated non-transactional batch executes strictly in input
order through the same single-operation executors, with one results
entry per operation determined only by that operation, all backend calls
of every operation issued (no halt, no rollback), and overall success
exactly when no operation failed. -/
theorem c9_sequential_batch (b : Backend) (ops : List RawOperation)
    (hne : ops ≠ []) (hval : (validateOperations 0 ops).2 = []) :
    handleBatchOperations b (ArgVal.val ops) (some false) =
      ({ isError := !((runSequential b 0 (validateOperations 0 ops).1).2.1).isEmpty,
         body := RespBody.batchSeqResult
           ((runSequential b 0 (validateOperations 0 ops).1).2.1).isEmpty
           ("Processed " ++ toString (validateOperations 0 ops).1.length
             ++ " operations with "
             ++ toString ((runSequential b 0 (validateOperations 0 ops).1).2.1).length
             ++ " errors")
           (runSequential b 0 (validateOperations 0 ops).1).1
           (runSequential b 0 (validateOperations 0 ops).1).2.1 },
       (runSequential b 0 (validateOperations 0 ops).1).2.2) ∧
    (runSequential b 0 (validateOperations 0 ops).1).1 =
      (validateOperations 0 ops).1.map (fun op => mkSeqEntry op (execOpSeq b op).1) ∧
    (runSequential b 0 (validateOperations 0 ops).1).1.length = ops.length ∧
    (runSequential b 0 (validateOperations 0 ops).1).2.2 =
      (validateOperations 0 ops).1.flatMap (fun op => (execOpSeq b op).2) ∧
    (((runSequential b 0 (validateOperations 0 ops).1).2.1).isEmpty = true ↔
      ∀ ent ∈ (runSequential b 0 (validateOperations 0 ops).1).1, ent.success = true) := by
  refine ⟨?_, runSequential_results b 0 (validateOperations 0 ops).1, ?_, ?_, ?_⟩
  · rcases ops with _ | ⟨o, os⟩
    · exact absurd rfl hne
    · simp [handleBatchOperations, hval]
  · rw [runSequential_results b 0 (validateOperations 0 ops).1, List.length_map]
    have hl := validateOperations_lengths 0 ops
    rw [hval] at hl
    simpa using hl
  · exact runSequential_calls b 0 (validateOperations 0 ops).1
  · rw [List.isEmpty_iff, runSequential_errors_nil_iff b 0 (validateOperations 0 ops).1,
      runSequential_results b 0 (validateOperations 0 ops).1]
    constructor
    · intro hall ent hent
      rw [List.mem_map] at hent
      obtain ⟨op, hop, hmk⟩ := hent
      rw [← hmk]
      simp [mkSeqEntry, hall op hop]
    · intro hall op hop
      have hmem : mkSeqEntry op (execOpSeq b op).1 ∈
          (validateOperations 0 ops).1.map (fun op => mkSeqEntry op (execOpSeq b op).1) :=
        List.mem_map.mpr ⟨op, hop, rfl⟩
      have hs := hall _ hmem
      simpa [mkSeqEntry, Option.isNone_iff_eq_none] using hs

/-- A three-operation batch: a valid insert, a shape-valid delete that
the backend will fail, and another valid insert. -/
def seqBatchOps : List RawOperation :=
  [ { type := some "insert", table := some "t1", values := ArgVal.val [("a", "1")],
      filter := ArgVal.absent, returning := none },
    { type := some "delete", table := some "missing", values := ArgVal.absent,
      filter := ArgVal.val [("id", "1")], returning := none },
    { type := some "insert", table := some "t1", values := ArgVal.val [("b", "2")],
      filter := ArgVal.absent, returning := none } ]

/-- C9 witness: on the concrete batch with a backend whose delete fails,
the sequential run has three entries, middle failing and the two inserts
succeeding independently. -/
theorem c9_sequential_batch_witness :
    seqBatchOps ≠ [] ∧ (validateOperations 0 seqBatchOps).2 = [] ∧
    (runSequential failingDeleteBackend 0
      (validateOperations 0 seqBatchOps).1).1.map SeqEntry.success = [true, false, true] ∧
    (runSequential failingDeleteBackend 0
      (validateOperations 0 seqBatchOps).1).1.length = seqBatchOps.length := by
  have h9 := c9_sequential_batch failingDeleteBackend seqBatchOps (by decide) (by decide)
  exact ⟨by decide, by decide, by decide, h9.2.2.1⟩

/-! ## C3 -/

/-- C3 counterexample: the resource schema read does not reject an
invalid table identifier.  On an input containing a character outside the
sanitizer class, `getTableSchema` silently truncates the identifier and
continues: it issues the backend schema query built from the truncated
name and returns the backend data with no error. -/
theorem c3_schema_read_counterexample :
    (∃ c ∈ ("users;" : String).toList, isIdentChar c = false) ∧
    sanitizeIdent "users;" = "users" ∧
    getTableSchema testBackend "users;" =
      ({ data := some "rows", error := none },
       [BackendCall.rpcQuery (some (schemaQuerySql "users"))]) := by
  refine ⟨⟨Char.ofNat 59, by decide, by decide⟩, by decide, ?_⟩
  decide

/-- Rejection of a non-sanitizable table name by the insertRecord
handler: error envelope, no backend call. -/
theorem handleInsertRecord_rejects (b : Backend) (s : String) (values : ArgVal Entries)
    (returning : Option String) (hfal : jsFalsyStr (some s) = false)
    (hne : sanitizeIdent s ≠ s) :
    (handleInsertRecord b (some s) values returning).1.isError = true ∧
    (handleInsertRecord b (some s) values returning).2 = [] := by
  cases hv : objArgInvalid values <;>
    simp [handleInsertRecord, hfal, hv, hne, errResp]

/-- Rejection of a non-sanitizable table name by the updateRecord
handler: error envelope, no backend call. -/
theorem handleUpdateRecord_rejects (b : Backend) (s : String) (values filter : ArgVal Entries)
    (returning : Option String) (hfal : jsFalsyStr (some s) = false)
    (hne : sanitizeIdent s ≠ s) :
    (handleUpdateRecord b (some s) values filter returning).1.isError = true ∧
    (handleUpdateRecord b (some s) values filter returning).2 = [] := by
  cases hv : objArgInvalid values <;> cases hf : objArgInvalid filter <;>
    simp [handleUpdateRecord, hfal, hv, hf, hne, errResp]

/-- Rejection of a non-sanitizable table name by the deleteRecord
handler: error envelope, no backend call. -/
theorem handleDeleteRecord_rejects (b : Backend) (s : String) (filter : ArgVal Entries)
    (returning : Option String) (hfal : jsFalsyStr (some s) = false)
    (hne : sanitizeIdent s ≠ s) :
    (handleDeleteRecord b (some s) filter returning).1.isError = true ∧
    (handleDeleteRecord b (some s) filter returning).2 = [] := by
  cases hf : objArgInvalid filter <;>
    simp [handleDeleteRecord, hfal, hf, hne, errResp]

/-- Rejection of a non-sanitizable table name by the batch validation. -/
theorem validateOp_rejects (op : RawOperation) (s : String) (hTable : op.table = some s)
    (hfal : jsFalsyStr (some s) = false) (hne : sanitizeIdent s ≠ s) :
    ∃ e, validateOp op = Except.error e := by
  cases ht : jsFalsyStr op.type
  · refine ⟨"Invalid table name. Table names can only contain alphanumeric characters and underscores.", ?_⟩
    simp [validateOp, hTable, ht, hfal, hne]
  · exact ⟨"Operation type is required", by simp [validateOp, ht]⟩

/-- C3 (amended): sanitization is the identity on strings made only of
characters in the class `[A-Za-z0-9_]`, and such a nonempty table name
with valid values lets insertRecord proceed to its backend call; a string
containing any character outside the class is changed by sanitization and
every mutating path consuming it as a table identifier (insertRecord,
updateRecord, deleteRecord, batch validation) rejects with an error and
zero backend calls — but the resource schema read instead silently
truncates the identifier and continues with the backend query. -/
theorem c3_sanitizer_behaviour (s : String) :
    ((∀ c ∈ s.toList, isIdentChar c = true) → sanitizeIdent s = s) ∧
    ((∀ c ∈ s.toList, isIdentChar c = true) → s.toList ≠ [] →
      ∀ b vs returning, vs ≠ ([] : Entries) →
        (handleInsertRecord b (some s) (ArgVal.val vs) returning).2 =
          [BackendCall.insert s vs (returning.getD "*")]) ∧
    ((∃ c ∈ s.toList, isIdentChar c = false) →
      sanitizeIdent s ≠ s ∧
      (∀ b values returning,
        (handleInsertRecord b (some s) values returning).1.isError = true ∧
        (handleInsertRecord b (some s) values returning).2 = []) ∧
      (∀ b values filter returning,
        (handleUpdateRecord b (some s) values filter returning).1.isError = true ∧
        (handleUpdateRecord b (some s) values filter returning).2 = []) ∧
      (∀ b filter returning,
        (handleDeleteRecord b (some s) filter returning).1.isError = true ∧
        (handleDeleteRecord b (some s) filter returning).2 = []) ∧
      (∀ ty values filter ret, ∃ e,
        validateOp { type := ty, table := some s, values := values, filter := filter,
                     returning := ret } = Except.error e) ∧
      (∀ b, (getTableSchema b s).2 =
        [BackendCall.rpcQuery (some (schemaQuerySql (sanitizeIdent s)))])) := by
  refine ⟨sanitizeIdent_eq_self s, ?_, ?_⟩
  · intro hval hnil b vs returning hvs
    have hsan := sanitizeIdent_eq_self s hval
    have hfal : jsFalsyStr (some s) = false := List.isEmpty_eq_false.mpr hnil
    cases he : (b.runInsert s vs (returning.getD "*")).error <;>
      simp [handleInsertRecord, hfal, hsan, objArgInvalid, ArgVal.getD,
        List.isEmpty_eq_false.mpr hvs, executeInsert, he, errResp]
  · rintro ⟨c, hc, hbad⟩
    have hne := sanitizeIdent_ne_self s c hc hbad
    have hfal : jsFalsyStr (some s) = false :=
      List.isEmpty_eq_false.mpr (List.ne_nil_of_mem hc)
    exact ⟨hne,
      fun b values returning => handleInsertRecord_rejects b s values returning hfal hne,
      fun b values filter returning =>
        handleUpdateRecord_rejects b s values filter returning hfal hne,
      fun b filter returning => handleDeleteRecord_rejects b s filter returning hfal hne,
      fun ty values filter ret => validateOp_rejects _ s rfl hfal hne,
      fun b => rfl⟩

/-- C3 witness: concrete valid and invalid identifiers exercising both
halves of the sanitizer theorem. -/
theorem c3_sanitizer_witness :
    (∀ c ∈ ("users" : String).toList, isIdentChar c = true) ∧
    sanitizeIdent "users" = "users" ∧
    (∃ c ∈ ("users;" : String).toList, isIdentChar c = false) ∧
    sanitizeIdent "users;" ≠ "users;" ∧
    (handleInsertRecord testBackend (some "users;") (ArgVal.val [("a", "1")]) none).2 = [] ∧
    (handleInsertRecord testBackend (some "users") (ArgVal.val [("a", "1")]) none).2 =
      [BackendCall.insert "users" [("a", "1")] "*"] := by
  have h1 := (c3_sanitizer_behaviour "users").1 (by decide)
  have h2 := (c3_sanitizer_behaviour "users").2.1 (by decide) (by decide)
    testBackend [("a", "1")] none (by decide)
  have h3 := (c3_sanitizer_behaviour "users;").2.2 ⟨Char.ofNat 59, by decide, by decide⟩
  exact ⟨by decide, h1, ⟨Char.ofNat 59, by decide, by decide⟩, h3.1,
    (h3.2.1 testBackend (ArgVal.val [("a", "1")]) none).2, h2⟩

/-! ## C7 -/

/-- C7 counterexample: a tool-call request with an unrecognized tool name
makes the dispatch handler throw (the `Except.error` case), so an
exception does escape to the protocol layer instead of a normalized
`isError` response. -/
theorem c7_unknown_tool_counterexample :
    handleCallTool testBackend (ToolRequest.unknownTool "foo") =
      Except.error "Unknown tool: foo" ∧
    ∀ r, handleCallTool testBackend (ToolRequest.unknownTool "foo") ≠ Except.ok r := by
  refine ⟨rfl, ?_⟩
  intro r h
  exact Except.noConfusion
    (show (Except.error "Unknown tool: foo" :
        Except String (ToolResponse × List BackendCall)) = Except.ok r from h)

/-- C7 (amended): for every recognized tool name the dispatch handler
returns a normalized response and never lets an exception escape;
only an unrecognized tool name throws. -/
theorem c7_known_tools_normalized (b : Backend) (req : ToolRequest)
    (h : req.isKnownTool = true) :
    ∃ resp : ToolResponse × List BackendCall, handleCallTool b req = Except.ok resp := by
  cases req with
  | query sql => exact ⟨_, rfl⟩
  | createTable sql => exact ⟨_, rfl⟩
  | insertRecord table values returning => exact ⟨_, rfl⟩
  | updateRecord table values filter returning => exact ⟨_, rfl⟩
  | deleteRecord table filter returning => exact ⟨_, rfl⟩
  | batchOperations operations useTransaction => exact ⟨_, rfl⟩
  | unknownTool name => exact absurd h (by simp [ToolRequest.isKnownTool])

/-- C7 witness: a concrete recognized tool call is answered with a
normalized response. -/
theorem c7_known_tools_witness :
    (ToolRequest.query (some "SELECT 1")).isKnownTool = true ∧
    ∃ resp : ToolResponse × List BackendCall,
      handleCallTool testBackend (ToolRequest.query (some "SELECT 1")) = Except.ok resp :=
  ⟨rfl, c7_known_tools_normalized testBackend (ToolRequest.query (some "SELECT 1")) rfl⟩
